import Mathlib

/-!
Verification of the dispatch core of the `afbmq` bot framework against its
natural-language specification.

The definitions below are a shallow embedding of the Python source:

* `afbmq/types/event.py` — `Sender`, `Recipient`, `MessageEvent`, `Entry`;
* `afbmq/dispatcher/dispatcher.py` — `Dispatcher.process_entries`,
  `Dispatcher.async_task`;
* `afbmq/dispatcher/filters/builtin.py` — `Command`, `CommandStart`, `Text`,
  `StateFilter`, `IDFilter`;
* `afbmq/dispatcher/webhook.py` — the context writes made on the dispatch path.

Python strings are modelled as Lean `String`, Python `None`/optional values as
`Option`, and operations that can raise as `Except`.  Fields named `prefix` in
the source are rendered `pfx`/`pfxs` here; otherwise names follow the source.
-/

/-- Python exceptions that the embedded code can raise. -/
inductive PyError
  | indexError
  | attributeError
  deriving DecidableEq, Repr

/-- Configuration errors raised synchronously by filter constructors
(`ValueError` in the source). -/
inductive InitError
  | modesConflict
  | noMode
  | idsBothNone
  | intValueError
  deriving DecidableEq, Repr

/-- Embeds `Sender` from `afbmq/types/event.py`: pydantic coerces the wire id
to `str`, so the id is a string. -/
structure SenderE where
  id : String
  deriving DecidableEq, Repr

/-- Embeds `Recipient` from `afbmq/types/event.py`. -/
structure RecipientE where
  id : String
  deriving DecidableEq, Repr

/-- Embeds the fields of `Message` from `afbmq/types/message.py` used by the
filters: `text` and `reply_to` (`none` when absent). -/
structure MessageE where
  mid : String
  text : String
  reply_to : Option String
  deriving DecidableEq, Repr

/-- Embeds `MessageEvent` from `afbmq/types/event.py`. -/
structure MessageEventE where
  sender : SenderE
  recipient : RecipientE
  message : MessageE
  deriving DecidableEq, Repr

/-- A runtime value held in an entry's `messaging` slot.  The dispatcher
guards each slot with `isinstance(event, MessageEvent)`, so a slot is either a
message event or some other (non-message) object. -/
inductive PyEvent
  | message (e : MessageEventE)
  | other
  deriving DecidableEq, Repr

/-- Embeds `Entry` from `afbmq/types/event.py`: `messaging` is a list whose
slots may be `None` (absent). -/
structure EntryE where
  id : String
  messaging : List (Option PyEvent)
  deriving DecidableEq, Repr

/-- Embeds `Dispatcher.process_entries` (`afbmq/dispatcher/dispatcher.py`,
lines 81–93).  For each entry the source evaluates `entry.messaging[0]`
unconditionally (an `IndexError` when the list is empty) and queues a dispatch
task exactly when that first slot holds a `MessageEvent`.  The embedding
returns the list of events for which a task is queued, in entry order. -/
def process_entries : List EntryE → Except PyError (List MessageEventE)
  | [] => .ok []
  | en :: rest =>
    match en.messaging with
    | [] => .error .indexError
    | some (.message m) :: _ => (process_entries rest).map (m :: ·)
    | _ :: _ => process_entries rest

/-- The claim C3 statement over one entry: the event dispatched for an entry
is determined by its first messaging slot alone. -/
def firstSlotDispatch (en : EntryE) : Option MessageEventE :=
  match en.messaging.head? with
  | some (some (.message m)) => some m
  | _ => none

/-- C3: `process_entries` considers only the first messaging slot of each
entry: a message-type first slot is dispatched; an absent (`None`) or
non-message first slot drops the whole entry silently, whatever the later
slots hold. -/
theorem process_entries_first_slot_only (entries : List EntryE)
    (h : ∀ en ∈ entries, en.messaging ≠ []) :
    process_entries entries = .ok (entries.filterMap firstSlotDispatch) := by
  induction entries with
  | nil => rfl
  | cons en rest ih =>
    have hrest : ∀ e ∈ rest, e.messaging ≠ [] := fun e he => h e (List.mem_cons_of_mem _ he)
    have hen : en.messaging ≠ [] := h en (List.mem_cons_self _ _)
    cases hm : en.messaging with
    | nil => exact absurd hm hen
    | cons slot tail =>
      cases slot with
      | some ev =>
        cases ev with
        | message m =>
          simp [process_entries, hm, ih hrest, firstSlotDispatch, List.filterMap_cons, Except.map]
        | other =>
          simp [process_entries, hm, ih hrest, firstSlotDispatch, List.filterMap_cons, Except.map]
      | none =>
        simp [process_entries, hm, ih hrest, firstSlotDispatch, List.filterMap_cons, Except.map]

/-- Witness for C3 at a concrete batch: the first entry's first slot is absent
although its second slot is a message (the entry is dropped), the second
entry's first slot is a non-message object (dropped), and the third entry's
first slot is a message (dispatched). -/
theorem process_entries_first_slot_only_witness :
    process_entries
      [⟨"e1", [none, some (.message ⟨⟨"u1"⟩, ⟨"c1"⟩, ⟨"m1", "hi", none⟩⟩)]⟩,
       ⟨"e2", [some .other, some (.message ⟨⟨"u2"⟩, ⟨"c2"⟩, ⟨"m2", "yo", none⟩⟩)]⟩,
       ⟨"e3", [some (.message ⟨⟨"u3"⟩, ⟨"c3"⟩, ⟨"m3", "ok", none⟩⟩)]⟩]
      = .ok [⟨⟨"u3"⟩, ⟨"c3"⟩, ⟨"m3", "ok", none⟩⟩] := by
  have := process_entries_first_slot_only
    [⟨"e1", [none, some (.message ⟨⟨"u1"⟩, ⟨"c1"⟩, ⟨"m1", "hi", none⟩⟩)]⟩,
     ⟨"e2", [some .other, some (.message ⟨⟨"u2"⟩, ⟨"c2"⟩, ⟨"m2", "yo", none⟩⟩)]⟩,
     ⟨"e3", [some (.message ⟨⟨"u3"⟩, ⟨"c3"⟩, ⟨"m3", "ok", none⟩⟩)]⟩]
    (by decide)
  simpa [firstSlotDispatch] using this

/-- C10: an entry whose `messaging` list is empty makes `process_entries`
raise `IndexError` (`entry.messaging[0]` is evaluated before any type check),
so the whole batch fails instead of skipping the entry. -/
theorem process_entries_empty_messaging_raises (pre : List EntryE) (en : EntryE)
    (post : List EntryE) (h : en.messaging = []) :
    process_entries (pre ++ en :: post) = .error .indexError := by
  induction pre with
  | nil => simp [process_entries, h]
  | cons x rest ih =>
    cases hx : x.messaging with
    | nil => simp [process_entries, hx]
    | cons slot tail =>
      cases slot with
      | some ev =>
        cases ev with
        | message m => simp [process_entries, hx, ih, Except.map]
        | other => simp [process_entries, hx, ih, Except.map]
      | none => simp [process_entries, hx, ih, Except.map]

/-- Witness for C10: a batch whose second entry has an empty `messaging` list
fails with `IndexError` even though the first entry is dispatchable. -/
theorem process_entries_empty_messaging_raises_witness :
    process_entries
      [⟨"e1", [some (.message ⟨⟨"u1"⟩, ⟨"c1"⟩, ⟨"m1", "hi", none⟩⟩)]⟩,
       ⟨"e2", []⟩]
      = .error .indexError :=
  process_entries_empty_messaging_raises
    [⟨"e1", [some (.message ⟨⟨"u1"⟩, ⟨"c1"⟩, ⟨"m1", "hi", none⟩⟩)]⟩]
    ⟨"e2", []⟩ [] rfl

/-- Python `str.lower()` on the ASCII texts of the claims: per-character
lowering. -/
def pyLower (s : String) : String := ⟨s.toList.map Char.toLower⟩

/-- ASCII whitespace recognized by Python `str.split()` (the texts in the
claims are ASCII; Python additionally splits on further Unicode spaces). -/
def isPySpace (c : Char) : Bool :=
  c = ' ' || c = '\t' || c = '\n' || c = '\r' || c = '\x0b' || c = '\x0c'

/-- First token of `message.text.split()`: skip leading whitespace, then take
the maximal whitespace-free run.  `none` models the `IndexError` of
`message.text.split()[0]` on a whitespace-only text. -/
def firstTokenAux : List Char → Option (List Char)
  | [] => none
  | c :: cs =>
    if isPySpace c then firstTokenAux cs
    else some (c :: cs.takeWhile (fun d => !isPySpace d))

/-- Python `s.partition('@')` restricted to what `check_command` uses: the
part before the first `'@'` and the part after it (empty when there is no
`'@'`, like the empty `mention` Python produces in that case). -/
def partitionAt : List Char → List Char × List Char
  | [] => ([], [])
  | c :: cs =>
    if c = '@' then ([], cs)
    else
      let r := partitionAt cs
      (c :: r.1, r.2)

/-- Embeds `Command.CommandObj` from `afbmq/dispatcher/filters/builtin.py`
(the `prefix` field is rendered `pfx`).  `args` is optional with default
`None`, exactly as in the dataclass. -/
structure CommandObj where
  pfx : String
  command : String
  mention : String
  args : Option String
  deriving DecidableEq, Repr

/-- Embeds the state of a `Command` filter instance after `Command.__init__`:
when `ignore_case` is set the stored command list is lower-cased. -/
structure CommandFilter where
  commands : List String
  pfxs : String
  ignore_case : Bool
  ignore_mention : Bool
  deriving DecidableEq, Repr

/-- Embeds `Command.__init__` (a single command string becomes a one-element
list before the call in every use below). -/
def CommandFilter.init (commands : List String) (pfxs : String)
    (ignore_case ignore_mention : Bool) : CommandFilter :=
  ⟨if ignore_case then commands.map pyLower else commands,
   pfxs, ignore_case, ignore_mention⟩

/-- Embeds the static `Command.check_command` (builtin.py lines 80–95).

Steps, in source order: an empty text is rejected; `text.split()[0]` is taken
(`IndexError` on whitespace-only text); the token's first character is the
prefix and the rest is partitioned at `'@'` into command and mention; a
non-empty mention (when not ignored) dereferences `message.fb.me`, an
attribute the `FB` class in `afbmq/fb.py` does not define, so that branch
raises `AttributeError`; then prefix membership in the prefix string and
(case-folded) command membership in the stored command list are tested; on
success a `CommandObj` is built from the original-case command — the `args`
field is never passed, so it keeps its `None` default. -/
def check_command (text : String) (commands : List String) (pfxs : String)
    (ignore_case ignore_mention : Bool) : Except PyError (Option CommandObj) :=
  if text = "" then .ok none
  else
    match firstTokenAux text.toList with
    | none => .error .indexError
    | some [] => .error .indexError
    | some (p :: rest) =>
      let parts := partitionAt rest
      let command : String := ⟨parts.1⟩
      let mention : String := ⟨parts.2⟩
      if ¬ ignore_mention ∧ mention ≠ "" then .error .attributeError
      else if ¬ pfxs.toList.contains p then .ok none
      else if ¬ commands.contains (if ignore_case then pyLower command else command) then
        .ok none
      else .ok (some ⟨⟨[p]⟩, command, mention, none⟩)

/-- Embeds `Command.check`: it delegates to `check_command` with the stored
configuration. -/
def CommandFilter.checkText (f : CommandFilter) (text : String) :
    Except PyError (Option CommandObj) :=
  check_command text f.commands f.pfxs f.ignore_case f.ignore_mention

theorem takeWhile_no_space (l r : List Char) (h : ∀ c ∈ l, isPySpace c = false) :
    (l ++ ' ' :: r).takeWhile (fun d => !isPySpace d) = l := by
  induction l with
  | nil => simp [List.takeWhile, isPySpace]
  | cons c cs ih =>
    have hc := h c (List.mem_cons_self _ _)
    simp [List.takeWhile, hc, ih (fun d hd => h d (List.mem_cons_of_mem _ hd))]

theorem firstToken_of_shape (p : Char) (l r : List Char)
    (hp : isPySpace p = false) (h : ∀ c ∈ l, isPySpace c = false) :
    firstTokenAux (p :: (l ++ ' ' :: r)) = some (p :: l) := by
  simp [firstTokenAux, hp, takeWhile_no_space l r h]

theorem partitionAt_no_at (l : List Char) (h : ∀ c ∈ l, c ≠ '@') :
    partitionAt l = (l, []) := by
  induction l with
  | nil => rfl
  | cons c cs ih =>
    have hc := h c (List.mem_cons_self _ _)
    simp [partitionAt, hc, ih (fun d hd => h d (List.mem_cons_of_mem _ hd))]

/-- C2 (amended): a case-insensitive `Command` filter on text
`p ++ cmd ++ " " ++ args` accepts iff `p` is one of the configured prefix
characters and `cmd.lower()` is in the lower-cased command set; on acceptance
the yielded command object keeps the command token in its original case and
its `args` field is `None` — the trailing text is not captured. -/
theorem command_filter_amended (p : Char) (cmd args : String) (C : List String)
    (P : String) (hp : isPySpace p = false)
    (hcmd : ∀ c ∈ cmd.toList, isPySpace c = false ∧ c ≠ '@') :
    (CommandFilter.init C P true false).checkText ⟨p :: (cmd.toList ++ ' ' :: args.toList)⟩
      = .ok (if P.toList.contains p && (C.map pyLower).contains (pyLower cmd)
             then some ⟨⟨[p]⟩, cmd, "", none⟩ else none) := by
  have h1 : ∀ c ∈ cmd.toList, isPySpace c = false := fun c hc => (hcmd c hc).1
  have h2 : ∀ c ∈ cmd.toList, c ≠ '@' := fun c hc => (hcmd c hc).2
  have hne : (⟨p :: (cmd.toList ++ ' ' :: args.toList)⟩ : String) ≠ "" := by
    intro h
    have := congrArg String.data h
    simp at this
  have htok : firstTokenAux (⟨p :: (cmd.toList ++ ' ' :: args.toList)⟩ : String).toList
      = some (p :: cmd.toList) := firstToken_of_shape p _ _ hp h1
  have hpart : partitionAt cmd.toList = (cmd.toList, []) := partitionAt_no_at _ h2
  have hcmdeq : (⟨cmd.toList⟩ : String) = cmd := rfl
  simp only [CommandFilter.checkText, check_command, CommandFilter.init, hne, if_neg,
    if_false, htok, hpart, hcmdeq]
  by_cases hpfx : p ∈ P.data
  · by_cases hmem : ∃ a ∈ C, pyLower a = pyLower cmd
    · have hnot : ¬ ∀ x ∈ C, ¬ pyLower x = pyLower cmd := by
        push_neg
        exact hmem

      simp [hpfx, hmem, hnot]
    · have hall : ∀ x ∈ C, ¬ pyLower x = pyLower cmd := by
        push_neg at hmem
        exact hmem

      simp [hpfx, hmem, hall]
  · simp [hpfx]

/-- Counterexample to C2 as stated: on text `"/START hello"` the filter built
with `commands=['start']`, `prefixes='/'`, `ignore_case=True` does accept, but
the yielded command object carries the original-case token `"START"` (not the
lower-cased `"start"` the claim requires) and its `args` field is `None` (not
`"hello"`). -/
theorem command_filter_claim_cex :
    (CommandFilter.init ["start"] "/" true false).checkText "/START hello"
        = .ok (some ⟨"/", "START", "", none⟩)
      ∧ ("START" : String) ≠ "start"
      ∧ (none : Option String) ≠ some "hello" :=
  ⟨rfl, by decide, by decide⟩

/-- Witness for the amended C2 theorem at the claim's own example input. -/
theorem command_filter_amended_witness :
    (CommandFilter.init ["start"] "/" true false).checkText
        ⟨'/' :: ("START".toList ++ ' ' :: "hello".toList)⟩
      = .ok (if ("/" : String).toList.contains '/'
                && ((["start"].map pyLower).contains (pyLower "START"))
             then some ⟨⟨['/']⟩, "START", "", none⟩ else none) :=
  command_filter_amended '/' "START" "hello" ["start"] "/" (by decide) (by decide)

/-- A deep-link argument for `CommandStart`: either a plain string or a
compiled regular expression, the latter abstracted by its match function
(its `re.Pattern.match` test against the argument text). -/
inductive DeepLinkArg
  | str (s : String)
  | pat (test : String → Bool)

/-- Result of `CommandStart.check`: a reject, the base command yield, a bare
`True` (the string-equality deep-link branch), or the `{deep_link: match}`
yield (the regex branch). -/
inductive StartCheckResult
  | reject
  | acceptCommand (obj : CommandObj)
  | acceptBool
  | acceptDeepLink
  deriving DecidableEq, Repr

/-- Embeds `message.get_args()` as called by `CommandStart.check`
(builtin.py lines 170 and 172): the `Message` class in
`afbmq/types/message.py` defines no `get_args` method, and pydantic models
raise `AttributeError` for unknown attributes, so the call always raises. -/
def messageGetArgs (_ : MessageE) : Except PyError String :=
  .error .attributeError

/-- Embeds `CommandStart.check` (builtin.py lines 158–177): the base check is
`Command(['start'])` with default prefixes `'/'`, `ignore_case=True`,
`ignore_mention=False`; when it succeeds and a deep link is configured, the
trailing argument text is fetched with `message.get_args()` and compared. -/
def CommandStart.check (deep_link : Option DeepLinkArg) (m : MessageE) :
    Except PyError StartCheckResult :=
  match check_command m.text ["start"] "/" true false with
  | .error e => .error e
  | .ok none => .ok .reject
  | .ok (some obj) =>
    match deep_link with
    | none => .ok (.acceptCommand obj)
    | some (.str s) =>
      match messageGetArgs m with
      | .error e => .error e
      | .ok args => .ok (if args = s then .acceptBool else .reject)
    | some (.pat f) =>
      match messageGetArgs m with
      | .error e => .error e
      | .ok args => .ok (if f args then .acceptDeepLink else .reject)

/-- C6 (code bug): for every deep-link argument — exact string or pattern —
`CommandStart.check` on the matching message `"/start ref"` raises
`AttributeError` instead of comparing the trailing text, because
`types.Message` defines no `get_args` method. -/
theorem commandstart_deeplink_raises (dl : DeepLinkArg) :
    CommandStart.check (some dl) ⟨"m1", "/start ref", none⟩ = .error .attributeError := by
  cases dl <;> rfl

/-- A `Text` constructor argument: a single string or a list of strings
(`LazyProxy` values are not modelled; the claims use plain strings). -/
inductive TextArg
  | str (s : String)
  | strs (l : List String)
  deriving DecidableEq, Repr

/-- The normalization done by `Text.__init__`: a single string becomes a
one-element list. -/
def TextArg.toStrList : TextArg → List String
  | .str s => [s]
  | .strs l => l

/-- Embeds the state of a `Text` filter after `Text.__init__`. -/
structure TextF where
  equals : Option (List String)
  contains : Option (List String)
  startswith : Option (List String)
  endswith : Option (List String)
  ignore_case : Bool
  deriving DecidableEq, Repr

/-- Embeds `Text.__init__` (builtin.py lines 219–254): more than one of the
four modes raises `ValueError`, zero modes raises `ValueError`, otherwise the
arguments are normalized to lists and stored. -/
def Text.init (equals contains startswith endswith : Option TextArg)
    (ignore_case : Bool) : Except InitError TextF :=
  let check := [equals, contains, startswith, endswith].countP Option.isSome
  if 1 < check then .error .modesConflict
  else if check = 0 then .error .noMode
  else .ok ⟨equals.map TextArg.toStrList, contains.map TextArg.toStrList,
            startswith.map TextArg.toStrList, endswith.map TextArg.toStrList,
            ignore_case⟩

/-- Python substring membership `sub in t`. -/
def strContains (t sub : String) : Bool :=
  t.toList.tails.any (fun suf => sub.toList.isPrefixOf suf)

/-- Embeds `Text.check` (builtin.py lines 262–290): non-message events are
rejected; with `ignore_case` both the text and the patterns are lower-cased;
the modes are tested in source order — `equals` is membership of the text in
the list, `contains` requires ALL listed substrings, `startswith` and
`endswith` require ANY listed affix. -/
def Text.check (f : TextF) (event : PyEvent) (obj : MessageE) : Bool :=
  match event with
  | .other => false
  | .message _ =>
    let text := if f.ignore_case then pyLower obj.text else obj.text
    let pre : String → String := fun s => if f.ignore_case then pyLower s else s
    match f.equals with
    | some l => (l.map pre).contains text
    | none =>
      match f.contains with
      | some l => (l.map pre).all (fun s => strContains text s)
      | none =>
        match f.startswith with
        | some l => (l.map pre).any (fun s => s.toList.isPrefixOf text.toList)
        | none =>
          match f.endswith with
          | some l => (l.map pre).any (fun s => s.toList.isSuffixOf text.toList)
          | none => false

/-- C9: in `contains` mode a `Text` filter accepts iff ALL configured
substrings occur in the text, while `startswith`/`endswith` accept iff ANY
configured affix matches; the claim's example `Text(contains=['a','b'])`
accepts `"xaybz"` and rejects `"xayz"`. -/
theorem text_check_modes (l : List String) (ev : MessageEventE) (m : MessageE) :
    (Text.init none (some (.strs l)) none none false
        = .ok ⟨none, some l, none, none, false⟩)
  ∧ (Text.check ⟨none, some l, none, none, false⟩ (.message ev) m
        = l.all (fun s => strContains m.text s))
  ∧ (Text.check ⟨none, none, some l, none, false⟩ (.message ev) m
        = l.any (fun s => s.toList.isPrefixOf m.text.toList))
  ∧ (Text.check ⟨none, none, none, some l, false⟩ (.message ev) m
        = l.any (fun s => s.toList.isSuffixOf m.text.toList))
  ∧ Text.check ⟨none, some ["a", "b"], none, none, false⟩ (.message ev) ⟨"m", "xaybz", none⟩
        = true
  ∧ Text.check ⟨none, some ["a", "b"], none, none, false⟩ (.message ev) ⟨"m", "xayz", none⟩
        = false := by
  refine ⟨rfl, ?_, ?_, ?_, ?_, ?_⟩
  · simp [Text.check]
  · simp [Text.check]
  · simp [Text.check]
  · simp [Text.check, strContains]
  · simp [Text.check, strContains]
    decide

/-- A Python id value, `int` or `str`.  Python equality between an `int` and
a `str` is always `False`, even between `5` and `"5"`. -/
inductive PyIdVal
  | int (n : Int)
  | str (s : String)
  deriving DecidableEq, Repr

/-- Python `==` on id values. -/
def pyEq : PyIdVal → PyIdVal → Bool
  | .int a, .int b => a == b
  | .str a, .str b => a == b
  | _, _ => false

/-- A `user_id`/`chat_id` constructor argument of `IDFilter`: a plain int, a
plain string, or a list of id values. -/
inductive IDArg
  | int (n : Int)
  | str (s : String)
  | list (l : List PyIdVal)
  deriving DecidableEq, Repr

/-- Python truthiness of an `IDFilter` constructor argument, as tested by the
source's `if user_id:` / `if chat_id:`. -/
def IDArg.truthy : IDArg → Bool
  | .int n => n != 0
  | .str s => s != ""
  | .list l => !l.isEmpty

/-- Python `int(x)` on an id value; `none` models the `ValueError` raise on a
non-numeric string. -/
def pyInt : PyIdVal → Option Int
  | .int n => some n
  | .str s => s.toInt?

/-- The conversion done by `IDFilter.__init__`: a plain int becomes a
one-element list; an iterable maps `int` over its items — and a Python `str`
IS iterable, so a plain string argument is flattened into its single
characters before `int` is applied to each. -/
def IDArg.toIntList : IDArg → Option (List Int)
  | .int n => some [n]
  | .str s => s.toList.mapM (fun c => (String.mk [c]).toInt?)
  | .list l => l.mapM pyInt

/-- Embeds the state of an `IDFilter` after `__init__`: each allow-list is
`none` when its argument was absent or falsy, otherwise the non-empty list of
`int`-converted entries. -/
structure IDFilterE where
  user_id : Option (List Int)
  chat_id : Option (List Int)
  deriving DecidableEq, Repr

/-- Embeds one `if user_id: self.user_id = ...` block of `IDFilter.__init__`:
a falsy argument (0, empty string, empty list) leaves the stored list `None`;
a failing `int()` conversion raises `ValueError`. -/
def convIds : Option IDArg → Except InitError (Option (List Int))
  | none => .ok none
  | some a =>
    if a.truthy then
      match a.toIntList with
      | some l => .ok (some l)
      | none => .error .intValueError
    else .ok none

/-- Embeds `IDFilter.__init__` (builtin.py lines 391–413): both arguments
`None` raises `ValueError`, otherwise each argument is converted. -/
def IDFilter.init (user_id chat_id : Option IDArg) : Except InitError IDFilterE :=
  match user_id, chat_id with
  | none, none => .error .idsBothNone
  | u, c =>
    match convIds u, convIds c with
    | .ok ul, .ok cl => .ok ⟨ul, cl⟩
    | .error e, _ => .error e
    | _, .error e => .error e

/-- Embeds `IDFilter.check` (builtin.py lines 426–440): the tested ids are
the event's (string) sender and recipient ids; each configured mode requires
membership in its allow-list under Python equality; both modes configured
requires both.  The source's `if self.user_id and self.chat_id:` truthiness
coincides with the `Option` split because a stored list is never empty. -/
def IDFilter.check (f : IDFilterE) (ev : MessageEventE) : Bool :=
  let user_id := PyIdVal.str ev.sender.id
  let chat_id := PyIdVal.str ev.recipient.id
  match f.user_id, f.chat_id with
  | some ul, some cl =>
    (ul.any fun n => pyEq user_id (.int n)) && (cl.any fun n => pyEq chat_id (.int n))
  | some ul, none => ul.any fun n => pyEq user_id (.int n)
  | none, some cl => cl.any fun n => pyEq chat_id (.int n)
  | none, none => false

/-- C7 (code bug): a configured `IDFilter` can never accept: the filter
stores `int`-converted allow-lists but compares them against the event's
string ids, and Python equality between a string and an int is always false.
The first conjunct evaluates the constructor at the failing configuration
`user_id=[42]`; the second shows every constructible filter rejects every
event. -/
theorem idfilter_never_matches :
    IDFilter.init (some (.list [.int 42])) none = .ok ⟨some [42], none⟩
  ∧ ∀ (f : IDFilterE) (ev : MessageEventE), IDFilter.check f ev = false := by
  refine ⟨rfl, ?_⟩
  intro f ev
  cases hu : f.user_id <;> cases hc : f.chat_id <;>
    simp [IDFilter.check, hu, hc, pyEq]

/-- C8: invalid filter construction raises synchronously: `Text` with two or
more of the four modes raises, `Text` with none raises, and `IDFilter` with
neither `user_id` nor `chat_id` raises. -/
theorem filter_construction_errors :
    (∀ (e c s w : Option TextArg) (ic : Bool),
        1 < ([e, c, s, w].countP Option.isSome) →
        Text.init e c s w ic = .error .modesConflict)
  ∧ (∀ ic : Bool, Text.init none none none none ic = .error .noMode)
  ∧ IDFilter.init none none = .error .idsBothNone := by
  refine ⟨?_, ?_, rfl⟩
  · intro e c s w ic h
    simp [Text.init, h]
  · intro ic
    rfl

/-- Witness for C8: `Text(equals='a', contains='b')` raises the
mutual-exclusion error, `Text()` raises the no-mode error, and
`IDFilter()` raises. -/
theorem filter_construction_errors_witness :
    Text.init (some (.str "a")) (some (.str "b")) none none false
        = .error .modesConflict
  ∧ Text.init none none none none false = .error .noMode
  ∧ IDFilter.init none none = .error .idsBothNone :=
  ⟨filter_construction_errors.1 (some (.str "a")) (some (.str "b")) none none false
      (by decide),
   filter_construction_errors.2.1 false,
   filter_construction_errors.2.2⟩

/-- Embeds the state of a `StateFilter` after `__init__`: the resolved list
of target states.  A target is a raw state name or Python `None`
(represented `none`); the wildcard is the string `"*"`.  (`State` and
`StatesGroup` arguments are resolved to their state-name strings by the
constructor; the claims use raw values only, and the module defining those
classes is not among the given sources.) -/
structure StateFilterE where
  states : List (Option String)
  deriving DecidableEq, Repr

/-- The per-dispatch ambient data touched by `StateFilter.check`: the value
of the class-level `ctx_state` context variable (unset at the start of a
dispatch task) and a count of `storage.get_state` calls, used to state the
caching claim. -/
structure DispatchCtx where
  cache : Option (Option String)
  reads : Nat
  deriving DecidableEq, Repr

/-- Result of `StateFilter.check`: a reject, a wildcard match, or a plain
match carrying the raw state. -/
inductive StateCheckResult
  | reject
  | acceptWildcard
  | accept (raw : Option String)
  deriving DecidableEq, Repr

/-- Whether the check accepted. -/
def StateCheckResult.isMatch : StateCheckResult → Bool
  | .reject => false
  | _ => true

/-- The keys of the mapping a `StateFilter` match contributes as extra
handler arguments: the wildcard branch returns `{'state': ...}` (builtin.py
line 351) while the other match branches return `{'state': ...,
'raw_state': state}` (lines 361 and 365). -/
def StateCheckResult.yieldKeys : StateCheckResult → List String
  | .reject => []
  | .acceptWildcard => ["state"]
  | .accept _ => ["state", "raw_state"]

/-- Embeds `StateFilter.check` (builtin.py lines 349–367) with the ambient
context passed explicitly.  `storage` maps a `(chat, user)` key to the
stored state name (`none` when nothing is stored), embedding
`storage.get_state`.  `get_target` reads the event's recipient and sender
ids; the source guards the storage read with Python truthiness
`if chat or user:`, which fails when both ids are empty strings. -/
def StateFilter.check (f : StateFilterE) (storage : String → String → Option String)
    (ev : MessageEventE) (ctx : DispatchCtx) : StateCheckResult × DispatchCtx :=
  if f.states.contains (some "*") then (.acceptWildcard, ctx)
  else
    match ctx.cache with
    | some st => if f.states.contains st then (.accept st, ctx) else (.reject, ctx)
    | none =>
      let chat := ev.recipient.id
      let user := ev.sender.id
      if chat ≠ "" ∨ user ≠ "" then
        let st := storage chat user
        let ctx' : DispatchCtx := ⟨some st, ctx.reads + 1⟩
        if f.states.contains st then (.accept st, ctx') else (.reject, ctx')
      else (.reject, ctx)

/-- Counterexample to C4 as stated: at the concrete event `("c", "u")` a
wildcard `StateFilter` matches but yields only the `state` key — no
`raw_state`, contradicting the claim's "on a match the filter yields
{state, raw_state}"; and at an event whose two ids are empty strings a
`state=None` filter rejects although no state is stored, contradicting
"accepts exactly when no state is stored". -/
theorem statefilter_claim_cex :
    (StateFilter.check ⟨[some "*"]⟩ (fun _ _ => some "S")
        ⟨⟨"u"⟩, ⟨"c"⟩, ⟨"m", "t", none⟩⟩ ⟨none, 0⟩).1 = .acceptWildcard
  ∧ StateCheckResult.acceptWildcard.isMatch = true
  ∧ "raw_state" ∉ StateCheckResult.acceptWildcard.yieldKeys
  ∧ (StateFilter.check ⟨[none]⟩ (fun _ _ => none)
        ⟨⟨""⟩, ⟨""⟩, ⟨"m", "t", none⟩⟩ ⟨none, 0⟩).1 = .reject := by
  refine ⟨rfl, rfl, by decide, ?_⟩
  simp [StateFilter.check]

/-- C4 (amended): a wildcard `StateFilter` accepts whatever the storage and
ambient cache hold, yielding only the `state` key; a `state=None` filter, on
an event with a non-empty recipient or sender id and a fresh per-dispatch
cache, accepts exactly when no state is stored for the event's
`(recipient, sender)` key, and its match carries `raw_state` (here `None`). -/
theorem statefilter_amended (storage : String → String → Option String)
    (ev : MessageEventE) (ctx : DispatchCtx)
    (hid : ev.recipient.id ≠ "" ∨ ev.sender.id ≠ "") :
    (StateFilter.check ⟨[some "*"]⟩ storage ev ctx).1 = .acceptWildcard
  ∧ ((StateFilter.check ⟨[none]⟩ storage ev ⟨none, 0⟩).1
        = if storage ev.recipient.id ev.sender.id = none then .accept none
          else .reject) := by
  constructor
  · simp [StateFilter.check]
  · by_cases hst : storage ev.recipient.id ev.sender.id = none
    · simp [StateFilter.check, hid, hst]
    · simp [StateFilter.check, hid, hst]

/-- Witness for the amended C4 theorem at a concrete event, storage and
cache. -/
theorem statefilter_amended_witness :
    (StateFilter.check ⟨[some "*"]⟩ (fun _ _ => some "S")
        ⟨⟨"u"⟩, ⟨"c"⟩, ⟨"m", "t", none⟩⟩ ⟨some (some "S"), 2⟩).1 = .acceptWildcard
  ∧ ((StateFilter.check ⟨[none]⟩ (fun _ _ => some "S")
        ⟨⟨"u"⟩, ⟨"c"⟩, ⟨"m", "t", none⟩⟩ ⟨none, 0⟩).1
        = if (fun (_ _ : String) => some "S") "c" "u" = none then .accept none
          else .reject) :=
  statefilter_amended (fun _ _ => some "S") ⟨⟨"u"⟩, ⟨"c"⟩, ⟨"m", "t", none⟩⟩
    ⟨some (some "S"), 2⟩ (by simp)

/-- After a non-wildcard check from a fresh dispatch context, either nothing
was read (both ids empty) or exactly one storage read filled the cache. -/
theorem stateCheck_fresh_ctx (f : StateFilterE)
    (storage : String → String → Option String) (ev : MessageEventE)
    (hf : f.states.contains (some "*") = false) :
    (StateFilter.check f storage ev ⟨none, 0⟩).2 = ⟨none, 0⟩
  ∨ (StateFilter.check f storage ev ⟨none, 0⟩).2
      = ⟨some (storage ev.recipient.id ev.sender.id), 1⟩ := by
  unfold StateFilter.check
  by_cases hcu : ev.recipient.id ≠ "" ∨ ev.sender.id ≠ ""
  · right
    simp only [hf, Bool.false_eq_true, if_false, hcu, if_true, ite_true]
    split_ifs <;> rfl
  · left
    simp only [hf, Bool.false_eq_true, if_false, hcu, ite_false]

theorem stateCheck_cache_hit (g : StateFilterE)
    (storage : String → String → Option String) (ev : MessageEventE)
    (st : Option String) (n : Nat)
    (hg : g.states.contains (some "*") = false) :
    (StateFilter.check g storage ev ⟨some st, n⟩).2 = ⟨some st, n⟩ := by
  unfold StateFilter.check
  simp only [hg, Bool.false_eq_true, if_false]
  split_ifs <;> rfl

/-- C5: within one dispatch (fresh cache), running two non-wildcard
`StateFilter` checks in sequence performs at most one `get_state` read: the
first check caches the stored state and the second reads the cache. -/
theorem statefilter_cached_single_read (f g : StateFilterE)
    (storage : String → String → Option String) (ev : MessageEventE)
    (hf : f.states.contains (some "*") = false)
    (hg : g.states.contains (some "*") = false) :
    ((StateFilter.check g storage ev
        (StateFilter.check f storage ev ⟨none, 0⟩).2).2).reads ≤ 1 := by
  rcases stateCheck_fresh_ctx f storage ev hf with h1 | h1
  · rw [h1]
    rcases stateCheck_fresh_ctx g storage ev hg with h2 | h2
    · rw [h2]
      exact Nat.zero_le 1
    · rw [h2]
  · rw [h1, stateCheck_cache_hit g storage ev _ 1 hg]

/-- Witness for C5 at two concrete `state=None` filters and a concrete
storage: the two sequential checks make exactly one read. -/
theorem statefilter_cached_single_read_witness :
    ((StateFilter.check ⟨[none]⟩ (fun _ _ => some "S")
        ⟨⟨"u"⟩, ⟨"c"⟩, ⟨"m", "t", none⟩⟩
        (StateFilter.check ⟨[some "A"]⟩ (fun _ _ => some "S")
          ⟨⟨"u"⟩, ⟨"c"⟩, ⟨"m", "t", none⟩⟩ ⟨none, 0⟩).2).2).reads ≤ 1 :=
  statefilter_cached_single_read ⟨[some "A"]⟩ ⟨[none]⟩ (fun _ _ => some "S")
    ⟨⟨"u"⟩, ⟨"c"⟩, ⟨"m", "t", none⟩⟩ (by decide) (by decide)

/-- A value stored in the per-task context mapping used by the source's
fire-and-forget machinery (`task.context`). -/
inductive CtxVal
  | str (s : String)
  | flag (b : Bool)
  | request
  | event (e : MessageEventE)
  deriving DecidableEq, Repr

/-- The `'event_object'` key that `Dispatcher.async_task`'s done callback
reads (dispatcher.py lines 18 and 153). -/
def EVENT_OBJECT : String := "event_object"

/-- The per-task context mapping as populated on the dispatch path for an
event.

Modelled from the spec: the context utility module backing this mapping
(`afbmq/utils/context.py`, imported by `webhook.py`) is not among the given
sources; per the spec the ambient per-dispatch values are the current sender,
current recipient and the state cache, and neither the handler chain nor the
middleware writes anything else.  The only context write visible in the given
sources is `WebhookRequestHandler.post`'s
`context.update_state({CALLER, WEBHOOK_CONNECTION, WEBHOOK_REQUEST})`
(webhook.py lines 97–99); `Dispatcher.process_event` sets the current
recipient and sender through separate per-type context variables
(dispatcher.py lines 103–104), and no code on the path writes an
`'event_object'` key. -/
def dispatchTaskContext (_ : MessageEventE) : List (String × CtxVal) :=
  [("CALLER", .str "webhook"),
   ("WEBHOOK_CONNECTION", .flag true),
   ("WEBHOOK_REQUEST", .request)]

/-- One notification queued for the error chain: the positional arguments
after `self` in `errors_handlers.notify(self, event, exception)`. -/
structure ErrorNotice where
  eventArg : Option MessageEventE
  exn : String
  deriving DecidableEq, Repr

/-- Embeds `process_response`, the done callback installed by
`Dispatcher.async_task` (dispatcher.py lines 147–153): when the detached task
failed with an exception, queue exactly one error-chain notification whose
event argument is `task.context.get(EVENT_OBJECT, None)`. -/
def process_response (ctx : List (String × CtxVal))
    (taskResult : Except String Unit) : List ErrorNotice :=
  match taskResult with
  | .ok _ => []
  | .error e =>
    [⟨match ctx.lookup EVENT_OBJECT with
      | some (.event ev) => some ev
      | _ => none, e⟩]

/-- Embeds the `wrapper` closure of `Dispatcher.async_task` (dispatcher.py
lines 155–158) as seen by its caller: it spawns the handler as a detached
task and returns `None` immediately, whatever the handler later does, so
`notify` and `process_entries` never observe the handler's exception. -/
def asyncTaskWrapperOutcome (_ : Except String Unit) : Except String Unit :=
  .ok ()

/-- C1 (code bug): when a detached handler fails, the done callback queues
exactly one error-chain notification and the enclosing dispatch completes
successfully, but the notification's event argument is `None` rather than the
triggering event: no code on the dispatch path ever writes the
`'event_object'` context key that `async_task` reads. -/
theorem detached_error_event_not_carried (ev : MessageEventE) (e : String) :
    process_response (dispatchTaskContext ev) (.error e) = [⟨none, e⟩]
  ∧ (process_response (dispatchTaskContext ev) (.error e)).length = 1
  ∧ asyncTaskWrapperOutcome (.error e) = .ok () :=
  ⟨rfl, rfl, rfl⟩
